import Mathlib

/-!
Shallow embedding of `src/api/tweet.rs` of the tweety-rs repository:
the tweet-endpoint client (lookup, post, edit, delete), its query-string
serialization, response decoding and error taxonomy.
-/

namespace Tweety

/-- Model of `serde_json::Value`: JSON values. -/
inductive Json where
  | null : Json
  | bool (b : Bool) : Json
  | num (n : Int) : Json
  | str (s : String) : Json
  | arr (xs : List Json) : Json
  | obj (fields : List (String × Json)) : Json

/-- Lookup of a key in a JSON object; `none` when the value is not an
object or the key is absent (model of indexing into a `serde_json` map). -/
def assocGet : List (String × Json) → String → Option Json
  | [], _ => none
  | (k', v) :: rest, k => if k' = k then some v else assocGet rest k

/-- Lookup of a key in a JSON object continued: dispatch on the value shape. -/
def Json.get? : Json → String → Option Json
  | .obj fields, k => assocGet fields k
  | _, _ => none

/-- Modelled from the spec: the error taxonomy of `api/error.rs` (the file
is not under `src/`; only its constructors are used in `src/api/tweet.rs`).
Three kinds: Serialize, Api, JsonParse, each carrying a descriptive string. -/
inductive TweetyError where
  | ApiError (msg : String) : TweetyError
  | JsonParseError (msg : String) : TweetyError
  | SerializeError (msg : String) : TweetyError
deriving DecidableEq, Repr

/-- Modelled from the spec: the `Display` rendering of a `TweetyError`
(`err.to_string()` in the source); errors carry only a descriptive string
plus their kind. -/
def TweetyError.display : TweetyError → String
  | .ApiError m => "API error: " ++ m
  | .JsonParseError m => "JSON parse error: " ++ m
  | .SerializeError m => "Serialization error: " ++ m

/-- HTTP methods used by the client (model of `reqwest::Method`). -/
inductive Method where
  | GET : Method
  | POST : Method
  | PATCH : Method
  | DELETE : Method
deriving DecidableEq, Repr

/-- One HTTP request as handed to the dispatch primitive. -/
structure Request where
  url : String
  method : Method
  body : Option Json

/-- Modelled from the spec: the client value of `api/client.rs` (not under
`src/`); it carries only caller-provided configuration (auth etc.), opaque
to this layer. -/
structure TweetyClient where
  config : String
deriving DecidableEq, Repr

/-- Modelled from the spec: the dispatch primitive `send_request` of
`api/client.rs` (external collaborator, interface only): given the client
and a request it yields a raw JSON value or a transport error. The
operations of this layer are parameterised by it. -/
def Transport : Type := TweetyClient → Request → Except TweetyError Json

/-- Source `self.send_request(url, method, body)`: apply the dispatch primitive. -/
def send_request (t : Transport) (c : TweetyClient) (req : Request) :
    Except TweetyError Json :=
  t c req

/-- Source `enum Ids`: a single identifier or a list of identifiers. -/
inductive Ids where
  | Single (id : String) : Ids
  | Multiple (ids : List String) : Ids

/-- Rust's `[String]::join(sep)`: the separator is inserted between
consecutive elements, none at either end. -/
def rustJoin (sep : String) : List String → String
  | [] => ""
  | [x] => x
  | x :: y :: xs => x ++ sep ++ rustJoin sep (y :: xs)

/-- Source `impl fmt::Display for Ids`: a single id prints as itself, a list
prints as `ids.join(",")`. -/
def Ids.render : Ids → String
  | .Single id => id
  | .Multiple ids => rustJoin (",") ids

/-- Modelled from the spec: `TweetField` of `api/mentions.rs` (not under
`src/`): a tweet-field selection token, rendered as a plain string. -/
structure TweetField where
  name : String

/-- Modelled from the spec: `ExpansionType` of `api/mentions.rs`. -/
structure ExpansionType where
  name : String

/-- Modelled from the spec: `MediaField` of `api/mentions.rs`. -/
structure MediaField where
  name : String

/-- Modelled from the spec: `PollField` of `api/mentions.rs`. -/
structure PollField where
  name : String

/-- Modelled from the spec: `UserField` of `api/mentions.rs`. -/
structure UserField where
  name : String

/-- Modelled from the spec: `PlaceField` of `api/mentions.rs`. -/
structure PlaceField where
  name : String

/-- Source `struct QueryParams`: six independently optional selection lists. -/
structure QueryParams where
  tweet_fields : Option (List TweetField)
  expansions : Option (List ExpansionType)
  media_fields : Option (List MediaField)
  poll_fields : Option (List PollField)
  user_fields : Option (List UserField)
  place_fields : Option (List PlaceField)

/-- The key/value pairs serde emits for a `QueryParams`: each field is
skipped exactly when it is `None` (attribute
`skip_serializing_if = Option.is_none` on every field), under its renamed
key; a present list serialises to its comma-joined rendering. -/
def QueryParams.serializedFields (q : QueryParams) : List (String × String) :=
  (match q.tweet_fields with
    | none => []
    | some xs => [(("tweet.fields"), rustJoin (",") (xs.map TweetField.name))]) ++
  (match q.expansions with
    | none => []
    | some xs => [(("expansions"), rustJoin (",") (xs.map ExpansionType.name))]) ++
  (match q.media_fields with
    | none => []
    | some xs => [(("media.fields"), rustJoin (",") (xs.map MediaField.name))]) ++
  (match q.poll_fields with
    | none => []
    | some xs => [(("poll.fields"), rustJoin (",") (xs.map PollField.name))]) ++
  (match q.user_fields with
    | none => []
    | some xs => [(("user.fields"), rustJoin (",") (xs.map UserField.name))]) ++
  (match q.place_fields with
    | none => []
    | some xs => [(("place.fields"), rustJoin (",") (xs.map PlaceField.name))])

/-- Modelled from the spec: `yaup::to_string` (external serializer): the
emitted query string is empty when no field is serialised, otherwise a
question mark followed by the ampersand-joined `key=value` pairs; absent
options contribute nothing. -/
def convert_query_to_string (q : QueryParams) : Except String String :=
  .ok (match q.serializedFields with
    | [] => ""
    | fields =>
        "?" ++ rustJoin ("&") (fields.map (fun kv => kv.1 ++ "=" ++ kv.2)))

/-- Modelled from the spec: `TweetData` of `api/mentions.rs` (not under
`src/`): the typed payload of a single-tweet lookup, with required
identifier and text fields. -/
structure TweetData where
  id : String
  text : String
deriving DecidableEq, Repr

/-- Source `struct LookupResponse`: the lookup payload under the `data` envelope. -/
structure LookupResponse where
  data : TweetData
deriving DecidableEq, Repr

/-- Source `struct TweetResponse`: edit-history ids, id and text of a posted tweet. -/
structure TweetResponse where
  edit_history_tweet_ids : List String
  id : String
  text : String
deriving DecidableEq, Repr

/-- Source `struct PostTweetResponseData`: the post payload under `data`. -/
structure PostTweetResponseData where
  data : TweetResponse
deriving DecidableEq, Repr

/-- Source `struct DeleteData`: the deletion flag. -/
structure DeleteData where
  deleted : Bool
deriving DecidableEq, Repr

/-- Source `struct DeleteResponse`: the deletion payload under `data`. -/
structure DeleteResponse where
  data : DeleteData
deriving DecidableEq, Repr

/-- Modelled from the spec: `PostTweetParams` of `types/tweet.rs` (not
under `src/`): an optional parameter object that builds the full request
body from the message via its `to_json` method. -/
structure PostTweetParams where
  to_json : String → Json

/-- Decode a JSON value as a string (serde model). -/
def Json.asString : Json → Except String String
  | .str s => .ok s
  | _ => .error ("invalid type: expected a string")

/-- Decode a JSON value as a list of strings (serde model). -/
def Json.asStringList : Json → Except String (List String)
  | .arr xs => xs.mapM Json.asString
  | _ => .error ("invalid type: expected a sequence")

/-- Decode a JSON value as a boolean (serde model). -/
def Json.asBool : Json → Except String Bool
  | .bool b => .ok b
  | _ => .error ("invalid type: expected a boolean")

/-- Derived `Deserialize` for `TweetData` (spec-modelled fields): both
`id` and `text` are required strings. -/
def TweetData.from_json (v : Json) : Except String TweetData :=
  match v.get? ("id") with
  | none => .error ("missing field id")
  | some idv =>
    match v.get? ("text") with
    | none => .error ("missing field text")
    | some tv => do
      let id ← idv.asString
      let text ← tv.asString
      .ok ⟨id, text⟩

/-- Derived `Deserialize` for `LookupResponse`: requires the `data` key,
whose value decodes as a `TweetData`. -/
def LookupResponse.from_json (v : Json) : Except String LookupResponse :=
  match v.get? ("data") with
  | none => .error ("missing field data")
  | some d => (TweetData.from_json d).map (fun t => ⟨t⟩)

/-- Derived `Deserialize` for `TweetResponse`: requires
`edit_history_tweet_ids`, `id` and `text`. -/
def TweetResponse.from_json (v : Json) : Except String TweetResponse :=
  match v.get? ("edit_history_tweet_ids") with
  | none => .error ("missing field edit_history_tweet_ids")
  | some hv =>
    match v.get? ("id") with
    | none => .error ("missing field id")
    | some idv =>
      match v.get? ("text") with
      | none => .error ("missing field text")
      | some tv => do
        let hist ← hv.asStringList
        let id ← idv.asString
        let text ← tv.asString
        .ok ⟨hist, id, text⟩

/-- Derived `Deserialize` for `PostTweetResponseData`: requires `data`,
whose value decodes as a `TweetResponse`. -/
def PostTweetResponseData.from_json (v : Json) : Except String PostTweetResponseData :=
  match v.get? ("data") with
  | none => .error ("missing field data")
  | some d => (TweetResponse.from_json d).map (fun t => ⟨t⟩)

/-- Derived `Deserialize` for `DeleteData`: requires the boolean `deleted`. -/
def DeleteData.from_json (v : Json) : Except String DeleteData :=
  match v.get? ("deleted") with
  | none => .error ("missing field deleted")
  | some bv => (bv.asBool).map (fun b => ⟨b⟩)

/-- Derived `Deserialize` for `DeleteResponse`: requires `data`, whose
value decodes as a `DeleteData`. -/
def DeleteResponse.from_json (v : Json) : Except String DeleteResponse :=
  match v.get? ("data") with
  | none => .error ("missing field data")
  | some d => (DeleteData.from_json d).map (fun dd => ⟨dd⟩)

/-- Source `get_tweet`: GET on the lookup-by-ids URL with the rendered ids as the
`ids` query value; the raw JSON result (or transport error) is returned
unchanged. The method takes `&self`, so the client observable after the
call is returned unchanged; the list records the requests dispatched. -/
def get_tweet (t : Transport) (c : TweetyClient) (tweet_id : Ids) :
    TweetyClient × Except TweetyError Json × List Request :=
  let base_url := "https://api.x.com/2/tweets/?ids=" ++ tweet_id.render
  let req : Request := ⟨base_url, .GET, none⟩
  (c, send_request t c req, [req])

/-- Source `get_tweet_info`: GET on the single-tweet URL; raw JSON returned
unchanged. -/
def get_tweet_info (t : Transport) (c : TweetyClient) (tweet_id : String) :
    TweetyClient × Except TweetyError Json × List Request :=
  let base_url := "https://api.x.com/2/tweets/" ++ tweet_id
  let req : Request := ⟨base_url, .GET, none⟩
  (c, send_request t c req, [req])

/-- Source `get_tweet_info_with_params`, parameterised by the external query
serializer (`yaup::to_string` in the source): serialize the optional
params (a failure becomes `SerializeError` before any dispatch), append
the query string to the URL, dispatch, then decode the payload as a
`LookupResponse` (a decode failure becomes `JsonParseError`, a transport
failure is re-wrapped as `ApiError` of its display). -/
def get_tweet_info_with_params
    (serializer : QueryParams → Except String String)
    (t : Transport) (c : TweetyClient)
    (tweet_id : String) (params : Option QueryParams) :
    TweetyClient × Except TweetyError LookupResponse × List Request :=
  let base_url := "https://api.x.com/2/tweets/" ++ tweet_id
  match params with
  | some query =>
    match serializer query with
    | .error e => (c, .error (.SerializeError e), [])
    | .ok query_params =>
      let url := base_url ++ query_params
      let req : Request := ⟨url, .GET, none⟩
      match send_request t c req with
      | .ok value =>
        match LookupResponse.from_json value with
        | .ok data => (c, .ok data, [req])
        | .error err => (c, .error (.JsonParseError err), [req])
      | .error err => (c, .error (.ApiError err.display), [req])
  | none =>
    let req : Request := ⟨base_url, .GET, none⟩
    match send_request t c req with
    | .ok value =>
      match LookupResponse.from_json value with
      | .ok data => (c, .ok data, [req])
      | .error err => (c, .error (.JsonParseError err), [req])
    | .error err => (c, .error (.ApiError err.display), [req])

/-- Source `post_tweet`: POST to the manage-tweets URL; the body is the one-key
text object when no params are given, otherwise whatever the params'
`to_json` produces from the message; the payload decodes as a
`PostTweetResponseData` (decode failure becomes `JsonParseError`,
transport failure is re-wrapped as `ApiError` of its display). -/
def post_tweet (t : Transport) (c : TweetyClient)
    (message : String) (body_params : Option PostTweetParams) :
    TweetyClient × Except TweetyError PostTweetResponseData × List Request :=
  let base_url := "https://api.twitter.com/2/tweets"
  let json_body :=
    match body_params with
    | some body => body.to_json message
    | none => Json.obj [(("text"), Json.str message)]
  let req : Request := ⟨base_url, .POST, some json_body⟩
  match send_request t c req with
  | .ok value =>
    match PostTweetResponseData.from_json value with
    | .ok res => (c, .ok res, [req])
    | .error e => (c, .error (.JsonParseError e), [req])
  | .error err => (c, .error (.ApiError err.display), [req])

/-- Source `edit_tweet`: PATCH on the per-id URL with body the one-key text
object; the raw result or transport error is returned unchanged. The
method consumes `self`, so no client is observable afterwards. -/
def edit_tweet (t : Transport) (c : TweetyClient)
    (message : String) (media_id : String) :
    Except TweetyError Json × List Request :=
  let base_url := "https://api.twitter.com/2/tweets/" ++ media_id
  let body := Json.obj [(("text"), Json.str message)]
  let req : Request := ⟨base_url, .PATCH, some body⟩
  (send_request t c req, [req])

/-- Source `delete_tweet`: DELETE on the per-id URL with no body; the payload
decodes as a `DeleteResponse` (decode failure becomes `JsonParseError`),
and a transport error is propagated unchanged. -/
def delete_tweet (t : Transport) (c : TweetyClient) (tweet_id : String) :
    TweetyClient × Except TweetyError DeleteResponse × List Request :=
  let url := "https://api.x.com/2/tweets/" ++ tweet_id
  let req : Request := ⟨url, .DELETE, none⟩
  match send_request t c req with
  | .ok value =>
    match DeleteResponse.from_json value with
    | .ok res => (c, .ok res, [req])
    | .error err => (c, .error (.JsonParseError err), [req])
  | .error err => (c, .error err, [req])

/-! ## Helpers for concrete instantiations -/

/-- A transport that always answers with JSON null. -/
def okTransport : Transport := fun _ _ => .ok Json.null

/-- A sample client value. -/
def sampleClient : TweetyClient := ⟨"token"⟩

/-- The parameter names the spec says must appear for a given
`QueryParams`: exactly the renamed keys of the fields that are `Some`
(spec-side definition, to be compared with the serializer's output). -/
def specParamNames (q : QueryParams) : List String :=
  (if (q.tweet_fields).isSome then [("tweet.fields")] else []) ++
  (if (q.expansions).isSome then [("expansions")] else []) ++
  (if (q.media_fields).isSome then [("media.fields")] else []) ++
  (if (q.poll_fields).isSome then [("poll.fields")] else []) ++
  (if (q.user_fields).isSome then [("user.fields")] else []) ++
  (if (q.place_fields).isSome then [("place.fields")] else [])

/-- The tail of a separated join: each element preceded by the separator. -/
def joinTail (sep : String) : List String → String
  | [] => ""
  | b :: bs => sep ++ b ++ joinTail sep bs

theorem intercalate_go_eq (sep : String) (as : List String) :
    ∀ a : String, String.intercalate.go a sep as = a ++ joinTail sep as := by
  induction as with
  | nil => intro a; simp [String.intercalate.go, joinTail]
  | cons b bs ih =>
      intro a
      show String.intercalate.go (a ++ sep ++ b) sep bs = _
      rw [ih]
      simp [joinTail, String.append_assoc]

theorem rustJoin_cons (sep x : String) (xs : List String) :
    rustJoin sep (x :: xs) = x ++ joinTail sep xs := by
  induction xs generalizing x with
  | nil => simp [rustJoin, joinTail]
  | cons y ys ih =>
      rw [rustJoin, ih]
      simp [joinTail, String.append_assoc]

/-- Rust's comma-join agrees with the library-level `String.intercalate`. -/
theorem rustJoin_eq_intercalate (sep : String) (l : List String) :
    rustJoin sep l = String.intercalate sep l := by
  cases l with
  | nil => rfl
  | cons a as =>
      show rustJoin sep (a :: as) = String.intercalate.go a sep as
      rw [rustJoin_cons, intercalate_go_eq]

/-! ## Claims -/

/-- C1: for a `QueryParams` with all six option fields `None` the
serialized query string is empty, and in general the keys emitted by
serialization are exactly the renamed parameter names of the fields that
are `Some` (including a `Some` holding an empty list) and no others:
omission is decided per field solely by the field being `None`. -/
theorem c1_query_param_omission (q : QueryParams) :
    ((q.tweet_fields = none ∧ q.expansions = none ∧ q.media_fields = none ∧
      q.poll_fields = none ∧ q.user_fields = none ∧ q.place_fields = none) →
      convert_query_to_string q = Except.ok ("")) ∧
    q.serializedFields.map Prod.fst = specParamNames q := by
  obtain ⟨tf, ex, mf, pf, uf, plf⟩ := q
  constructor
  · rintro ⟨h1, h2, h3, h4, h5, h6⟩
    subst h1; subst h2; subst h3; subst h4; subst h5; subst h6
    rfl
  · cases tf <;> cases ex <;> cases mf <;> cases pf <;> cases uf <;> cases plf <;>
      simp [QueryParams.serializedFields, specParamNames]

/-- Witness for C1 at a concrete input with one present-but-empty list and
one present non-empty list. -/
theorem c1_query_param_omission_witness :
    (((⟨some [], none, none, none, none, some [⟨"country"⟩]⟩ : QueryParams).tweet_fields = none ∧
      (⟨some [], none, none, none, none, some [⟨"country"⟩]⟩ : QueryParams).expansions = none ∧
      (⟨some [], none, none, none, none, some [⟨"country"⟩]⟩ : QueryParams).media_fields = none ∧
      (⟨some [], none, none, none, none, some [⟨"country"⟩]⟩ : QueryParams).poll_fields = none ∧
      (⟨some [], none, none, none, none, some [⟨"country"⟩]⟩ : QueryParams).user_fields = none ∧
      (⟨some [], none, none, none, none, some [⟨"country"⟩]⟩ : QueryParams).place_fields = none) →
      convert_query_to_string ⟨some [], none, none, none, none, some [⟨"country"⟩]⟩ =
        Except.ok ("")) ∧
    (QueryParams.serializedFields ⟨some [], none, none, none, none, some [⟨"country"⟩]⟩).map
        Prod.fst =
      specParamNames ⟨some [], none, none, none, none, some [⟨"country"⟩]⟩ :=
  c1_query_param_omission ⟨some [], none, none, none, none, some [⟨"country"⟩]⟩

/-- C2: rendering `Ids.Multiple l` for non-empty `l` joins the elements
with a literal comma in original order, rendering `Ids.Single s` is `s`
itself, and `get_tweet` dispatches to the URL that appends this rendering
as the value of the `ids` query parameter. -/
theorem c2_ids_comma_join (l : List String) (s : String) (t : Transport)
    (c : TweetyClient) (h : l ≠ []) :
    Ids.render (Ids.Multiple l) = String.intercalate (",") l ∧
    Ids.render (Ids.Single s) = s ∧
    (get_tweet t c (Ids.Multiple l)).2.2.map Request.url =
      ["https://api.x.com/2/tweets/?ids=" ++ String.intercalate (",") l] := by
  refine ⟨rustJoin_eq_intercalate (",") l, rfl, ?_⟩
  show ["https://api.x.com/2/tweets/?ids=" ++ Ids.render (Ids.Multiple l)] = _
  rw [show Ids.render (Ids.Multiple l) = rustJoin (",") l from rfl,
    rustJoin_eq_intercalate]

/-- Witness for C2 at the identifier list of the spec's example. -/
theorem c2_ids_comma_join_witness :
    (["1", "2", "3"] : List String) ≠ [] ∧
    (Ids.render (Ids.Multiple ["1", "2", "3"]) = String.intercalate (",") ["1", "2", "3"] ∧
     Ids.render (Ids.Single ("42")) = "42" ∧
     (get_tweet okTransport sampleClient (Ids.Multiple ["1", "2", "3"])).2.2.map Request.url =
       ["https://api.x.com/2/tweets/?ids=" ++ String.intercalate (",") ["1", "2", "3"]]) :=
  ⟨by decide, c2_ids_comma_join ["1", "2", "3"] ("42") okTransport sampleClient (by decide)⟩

/-- C5: with no optional parameters, `post_tweet` sends exactly the
one-key JSON body pairing "text" with the message; with parameters
present, the body is exactly what the parameter object's `to_json`
produces from the message. -/
theorem c5_post_tweet_body (m : String) (t : Transport) (c : TweetyClient) :
    (post_tweet t c m none).2.2.map Request.body =
      [some (Json.obj [(("text"), Json.str m)])] ∧
    ∀ p : PostTweetParams,
      (post_tweet t c m (some p)).2.2.map Request.body = [some (p.to_json m)] := by
  constructor
  · simp only [post_tweet, send_request]
    split <;> (try split) <;> rfl
  · intro p
    simp only [post_tweet, send_request]
    split <;> (try split) <;> rfl

/-- C8: the deletion response decodes to exactly the boolean carried under
the data/deleted keys, for either boolean. -/
theorem c8_delete_decode (b : Bool) (c : TweetyClient) (id : String) :
    (delete_tweet
        (fun _ _ => Except.ok (Json.obj [(("data"), Json.obj [(("deleted"), Json.bool b)])]))
        c id).2.1 = Except.ok ⟨⟨b⟩⟩ := by
  rfl

/-- C9: `edit_tweet` dispatches a single PATCH request whose body is
exactly the one-key text object — the identifier only reaches the URL
path — and `delete_tweet` dispatches a single DELETE request with no body
and the identifier in the URL path. -/
theorem c9_edit_delete_requests (m id : String) (t : Transport) (c : TweetyClient) :
    (edit_tweet t c m id).2 =
      [⟨"https://api.twitter.com/2/tweets/" ++ id, Method.PATCH,
        some (Json.obj [(("text"), Json.str m)])⟩] ∧
    (delete_tweet t c id).2.2 =
      [⟨"https://api.x.com/2/tweets/" ++ id, Method.DELETE, none⟩] := by
  refine ⟨rfl, ?_⟩
  simp only [delete_tweet, send_request]
  split <;> (try split) <;> rfl

/-- A sample envelope whose data object is present but empty. -/
def emptyDataEnvelope : Json := Json.obj [(("data"), Json.obj [])]

/-- A `TweetData` decode fails when a required field is absent. -/
theorem tweetData_missing_field (d : Json)
    (h : d.get? ("id") = none ∨ d.get? ("text") = none) :
    ∃ msg, msg ≠ "" ∧ TweetData.from_json d = Except.error msg := by
  cases hid : d.get? ("id") with
  | none => exact ⟨"missing field id", by simp, by simp [TweetData.from_json, hid]⟩
  | some idv =>
      cases ht : d.get? ("text") with
      | none =>
          exact ⟨"missing field text", by simp, by simp [TweetData.from_json, hid, ht]⟩
      | some tv =>
          rcases h with h | h
          · simp [h] at hid
          · simp [h] at ht

/-- A `TweetResponse` decode fails when a required field is absent. -/
theorem tweetResponse_missing_field (d : Json)
    (h : d.get? ("edit_history_tweet_ids") = none ∨ d.get? ("id") = none ∨
      d.get? ("text") = none) :
    ∃ msg, msg ≠ "" ∧ TweetResponse.from_json d = Except.error msg := by
  cases hh : d.get? ("edit_history_tweet_ids") with
  | none =>
      exact ⟨"missing field edit_history_tweet_ids", by simp,
        by simp [TweetResponse.from_json, hh]⟩
  | some histv =>
      cases hid : d.get? ("id") with
      | none =>
          exact ⟨"missing field id", by simp,
            by simp [TweetResponse.from_json, hh, hid]⟩
      | some idv =>
          cases ht : d.get? ("text") with
          | none =>
              exact ⟨"missing field text", by simp,
                by simp [TweetResponse.from_json, hh, hid, ht]⟩
          | some tv =>
              rcases h with h | h | h
              · simp [h] at hh
              · simp [h] at hid
              · simp [h] at ht

/-- A `DeleteData` decode fails when the deleted flag is absent. -/
theorem deleteData_missing_field (d : Json)
    (h : d.get? ("deleted") = none) :
    ∃ msg, msg ≠ "" ∧ DeleteData.from_json d = Except.error msg :=
  ⟨"missing field deleted", by simp, by simp [DeleteData.from_json, h]⟩

/-- A `LookupResponse` decode fails on a missing data key or a data object
missing a required field. -/
theorem lookupResponse_malformed (v : Json)
    (h : v.get? ("data") = none ∨ ∃ d, v.get? ("data") = some d ∧
      (d.get? ("id") = none ∨ d.get? ("text") = none)) :
    ∃ msg, msg ≠ "" ∧ LookupResponse.from_json v = Except.error msg := by
  rcases h with h | ⟨d, hd, hmiss⟩
  · exact ⟨"missing field data", by simp, by simp [LookupResponse.from_json, h]⟩
  · obtain ⟨msg, hne, hdec⟩ := tweetData_missing_field d hmiss
    exact ⟨msg, hne, by simp [LookupResponse.from_json, hd, hdec, Except.map]⟩

/-- A `PostTweetResponseData` decode fails on a missing data key or a data
object missing a required field. -/
theorem postResponseData_malformed (v : Json)
    (h : v.get? ("data") = none ∨ ∃ d, v.get? ("data") = some d ∧
      (d.get? ("edit_history_tweet_ids") = none ∨ d.get? ("id") = none ∨
       d.get? ("text") = none)) :
    ∃ msg, msg ≠ "" ∧ PostTweetResponseData.from_json v = Except.error msg := by
  rcases h with h | ⟨d, hd, hmiss⟩
  · exact ⟨"missing field data", by simp,
      by simp [PostTweetResponseData.from_json, h]⟩
  · obtain ⟨msg, hne, hdec⟩ := tweetResponse_missing_field d hmiss
    exact ⟨msg, hne,
      by simp [PostTweetResponseData.from_json, hd, hdec, Except.map]⟩

/-- A `DeleteResponse` decode fails on a missing data key or a data object
missing the deleted flag. -/
theorem deleteResponse_malformed (v : Json)
    (h : v.get? ("data") = none ∨ ∃ d, v.get? ("data") = some d ∧
      d.get? ("deleted") = none) :
    ∃ msg, msg ≠ "" ∧ DeleteResponse.from_json v = Except.error msg := by
  rcases h with h | ⟨d, hd, hmiss⟩
  · exact ⟨"missing field data", by simp, by simp [DeleteResponse.from_json, h]⟩
  · obtain ⟨msg, hne, hdec⟩ := deleteData_missing_field d hmiss
    exact ⟨msg, hne, by simp [DeleteResponse.from_json, hd, hdec, Except.map]⟩

/-- C3: whenever the transport's JSON value lacks the top-level data key,
or carries a data value missing a required field of the target structure,
decoding in `get_tweet_info_with_params`, `post_tweet` and `delete_tweet`
returns a `JsonParseError` carrying a non-empty descriptive string — never
a successfully constructed result — and the `JsonParseError` kind is
distinct from the `ApiError` kind used for transport failures. -/
theorem c3_missing_data_parse_error (v : Json) (c : TweetyClient)
    (id m : String) (params : Option QueryParams) (p : Option PostTweetParams) :
    ((v.get? ("data") = none ∨ ∃ d, v.get? ("data") = some d ∧
        (d.get? ("id") = none ∨ d.get? ("text") = none)) →
      ∃ msg, msg ≠ "" ∧
        (get_tweet_info_with_params convert_query_to_string (fun _ _ => Except.ok v)
            c id params).2.1 = Except.error (.JsonParseError msg)) ∧
    ((v.get? ("data") = none ∨ ∃ d, v.get? ("data") = some d ∧
        (d.get? ("edit_history_tweet_ids") = none ∨ d.get? ("id") = none ∨
         d.get? ("text") = none)) →
      ∃ msg, msg ≠ "" ∧
        (post_tweet (fun _ _ => Except.ok v) c m p).2.1 =
          Except.error (.JsonParseError msg)) ∧
    ((v.get? ("data") = none ∨ ∃ d, v.get? ("data") = some d ∧
        d.get? ("deleted") = none) →
      ∃ msg, msg ≠ "" ∧
        (delete_tweet (fun _ _ => Except.ok v) c id).2.1 =
          Except.error (.JsonParseError msg)) ∧
    (∀ a b, TweetyError.JsonParseError a ≠ TweetyError.ApiError b) := by
  refine ⟨?_, ?_, ?_, fun a b => by simp⟩
  · intro h
    obtain ⟨msg, hne, hdec⟩ := lookupResponse_malformed v h
    refine ⟨msg, hne, ?_⟩
    cases params with
    | none => simp [get_tweet_info_with_params, send_request, hdec]
    | some q =>
        simp only [get_tweet_info_with_params, send_request, convert_query_to_string]
        simp [hdec]
  · intro h
    obtain ⟨msg, hne, hdec⟩ := postResponseData_malformed v h
    refine ⟨msg, hne, ?_⟩
    cases p <;> simp [post_tweet, send_request, hdec]
  · intro h
    obtain ⟨msg, hne, hdec⟩ := deleteResponse_malformed v h
    exact ⟨msg, hne, by simp [delete_tweet, send_request, hdec]⟩

/-- Witness for C3 at a concrete envelope whose data object is present but
empty, so every required field is missing. -/
theorem c3_missing_data_parse_error_witness :
    (emptyDataEnvelope.get? ("data") = some (Json.obj []) ∧
     (Json.obj []).get? ("deleted") = none) ∧
    (((emptyDataEnvelope.get? ("data") = none ∨ ∃ d,
        emptyDataEnvelope.get? ("data") = some d ∧
        (d.get? ("id") = none ∨ d.get? ("text") = none)) →
      ∃ msg, msg ≠ "" ∧
        (get_tweet_info_with_params convert_query_to_string
            (fun _ _ => Except.ok emptyDataEnvelope)
            sampleClient ("7") none).2.1 = Except.error (.JsonParseError msg)) ∧
    ((emptyDataEnvelope.get? ("data") = none ∨ ∃ d,
        emptyDataEnvelope.get? ("data") = some d ∧
        (d.get? ("edit_history_tweet_ids") = none ∨ d.get? ("id") = none ∨
         d.get? ("text") = none)) →
      ∃ msg, msg ≠ "" ∧
        (post_tweet (fun _ _ => Except.ok emptyDataEnvelope)
            sampleClient ("hi") none).2.1 = Except.error (.JsonParseError msg)) ∧
    ((emptyDataEnvelope.get? ("data") = none ∨ ∃ d,
        emptyDataEnvelope.get? ("data") = some d ∧
        d.get? ("deleted") = none) →
      ∃ msg, msg ≠ "" ∧
        (delete_tweet (fun _ _ => Except.ok emptyDataEnvelope)
            sampleClient ("7")).2.1 = Except.error (.JsonParseError msg)) ∧
    (∀ a b, TweetyError.JsonParseError a ≠ TweetyError.ApiError b)) :=
  ⟨⟨rfl, rfl⟩, c3_missing_data_parse_error emptyDataEnvelope
    sampleClient ("7") ("hi") none none⟩

/-- C4: when the query serializer fails, `get_tweet_info_with_params`
returns a `SerializeError` and dispatches no request at all; conversely a
`SerializeError` result can only arise that way — from supplied params
whose serialization failed, before any network call. -/
theorem c4_serialize_error_before_dispatch
    (serializer : QueryParams → Except String String) (t : Transport)
    (c : TweetyClient) (id : String) (q : QueryParams) (e : String)
    (h : serializer q = Except.error e) :
    get_tweet_info_with_params serializer t c id (some q) =
      (c, Except.error (.SerializeError e), []) ∧
    ∀ (params : Option QueryParams) (r : String),
      (get_tweet_info_with_params serializer t c id params).2.1 =
          Except.error (.SerializeError r) →
        (∃ q', params = some q' ∧ serializer q' = Except.error r) ∧
        (get_tweet_info_with_params serializer t c id params).2.2 = [] := by
  constructor
  · simp [get_tweet_info_with_params, h]
  · intro params r hr
    cases params with
    | none =>
        exfalso
        revert hr
        simp only [get_tweet_info_with_params, send_request]
        split <;> (try split) <;> simp
    | some q' =>
        cases hs : serializer q' with
        | error e' =>
            simp only [get_tweet_info_with_params, hs] at hr ⊢
            simp at hr
            exact ⟨⟨q', rfl, by rw [hs, hr]⟩, trivial⟩
        | ok qp =>
            exfalso
            revert hr
            simp only [get_tweet_info_with_params, hs, send_request]
            split <;> (try split) <;> simp

/-- Witness for C4 with a concretely failing serializer. -/
theorem c4_serialize_error_before_dispatch_witness :
    (fun _ : QueryParams => (Except.error ("boom") : Except String String))
        ⟨none, none, none, none, none, none⟩ = Except.error ("boom") ∧
    (get_tweet_info_with_params (fun _ => Except.error ("boom")) okTransport
        sampleClient ("7") (some ⟨none, none, none, none, none, none⟩) =
      (sampleClient, Except.error (.SerializeError ("boom")), []) ∧
    ∀ (params : Option QueryParams) (r : String),
      (get_tweet_info_with_params (fun _ => Except.error ("boom")) okTransport
          sampleClient ("7") params).2.1 = Except.error (.SerializeError r) →
        (∃ q', params = some q' ∧
          (fun _ : QueryParams => (Except.error ("boom") : Except String String)) q' =
            Except.error r) ∧
        (get_tweet_info_with_params (fun _ => Except.error ("boom")) okTransport
            sampleClient ("7") params).2.2 = []) :=
  ⟨rfl, c4_serialize_error_before_dispatch (fun _ => Except.error ("boom")) okTransport
    sampleClient ("7") ⟨none, none, none, none, none, none⟩ ("boom") rfl⟩

/-- C7: on a transport failure, exactly the two operations
`get_tweet_info_with_params` and `post_tweet` re-wrap the typed transport
error as an `ApiError` carrying its display string, while `delete_tweet`,
`get_tweet`, `get_tweet_info` and `edit_tweet` propagate the transport
error value unchanged. -/
theorem c7_api_rewrap (e : TweetyError) (c : TweetyClient) (i : Ids)
    (id m mid : String) (params : Option QueryParams) (p : Option PostTweetParams) :
    (get_tweet_info_with_params convert_query_to_string (fun _ _ => Except.error e)
        c id params).2.1 = Except.error (.ApiError e.display) ∧
    (post_tweet (fun _ _ => Except.error e) c m p).2.1 =
      Except.error (.ApiError e.display) ∧
    (delete_tweet (fun _ _ => Except.error e) c id).2.1 = Except.error e ∧
    (get_tweet (fun _ _ => Except.error e) c i).2.1 = Except.error e ∧
    (get_tweet_info (fun _ _ => Except.error e) c id).2.1 = Except.error e ∧
    (edit_tweet (fun _ _ => Except.error e) c m mid).1 = Except.error e := by
  refine ⟨?_, ?_, rfl, rfl, rfl, rfl⟩
  · cases params <;>
      simp [get_tweet_info_with_params, send_request, convert_query_to_string]
  · cases p <;> simp [post_tweet, send_request]

/-! ## URL hosts -/

/-- The characters of a URL remainder up to the first slash. -/
def hostChars : List Char → List Char
  | [] => []
  | ch :: rest => if ch = '/' then [] else ch :: hostChars rest

/-- The host of an https URL: the characters after the scheme prefix of
length 8 and before the next slash. -/
def urlHost (s : String) : List Char :=
  hostChars (s.data.drop 8)

theorem hostChars_append_slash (l r : List Char) (hl : ('/') ∉ l) :
    hostChars (l ++ ('/') :: r) = l := by
  induction l with
  | nil => simp [hostChars]
  | cons a as ih =>
      have ha : a ≠ ('/') := fun h => hl (h ▸ List.mem_cons_self a as)
      simp only [List.cons_append, hostChars, if_neg ha]
      exact congrArg (List.cons a) (ih (fun hm => hl (List.mem_cons_of_mem a hm)))

theorem urlHost_x (s : String) :
    urlHost ("https://api.x.com/" ++ s) = ("api.x.com").data := by
  show hostChars ((("https://api.x.com/" ++ s)).data.drop 8) = _
  rw [String.data_append, List.drop_append_eq_append_drop]
  exact hostChars_append_slash ("api.x.com").data s.data (by decide)

theorem urlHost_twitter (s : String) :
    urlHost ("https://api.twitter.com/" ++ s) = ("api.twitter.com").data := by
  show hostChars ((("https://api.twitter.com/" ++ s)).data.drop 8) = _
  rw [String.data_append, List.drop_append_eq_append_drop]
  exact hostChars_append_slash ("api.twitter.com").data s.data (by decide)

/-! ## Request logs of the operations -/

theorem delete_tweet_log (t : Transport) (c : TweetyClient) (id : String) :
    (delete_tweet t c id).2.2 =
      [⟨"https://api.x.com/2/tweets/" ++ id, Method.DELETE, none⟩] := by
  simp only [delete_tweet, send_request]
  split <;> (try split) <;> rfl

theorem post_tweet_log (t : Transport) (c : TweetyClient) (m : String)
    (p : Option PostTweetParams) :
    ∃ b, (post_tweet t c m p).2.2 =
      [⟨"https://api.twitter.com/2/tweets", Method.POST, some b⟩] := by
  simp only [post_tweet, send_request]
  split <;> (try split) <;> exact ⟨_, rfl⟩

theorem lookup_params_log (t : Transport) (c : TweetyClient) (id : String)
    (params : Option QueryParams) :
    ∃ s, (get_tweet_info_with_params convert_query_to_string t c id params).2.2 =
      [⟨"https://api.x.com/" ++ s, Method.GET, none⟩] := by
  cases params with
  | none =>
      refine ⟨"2/tweets/" ++ id, ?_⟩
      rw [show ("https://api.x.com/" ++ ("2/tweets/" ++ id)) =
        "https://api.x.com/2/tweets/" ++ id from (String.append_assoc _ _ _).symm]
      simp only [get_tweet_info_with_params, send_request]
      split <;> (try split) <;> rfl
  | some q =>
      cases hq : convert_query_to_string q with
      | error e => simp [convert_query_to_string] at hq
      | ok qs =>
          refine ⟨"2/tweets/" ++ id ++ qs, ?_⟩
          rw [show ("https://api.x.com/" ++ ("2/tweets/" ++ id ++ qs)) =
            ("https://api.x.com/2/tweets/" ++ id) ++ qs by
              rw [← String.append_assoc, ← String.append_assoc]; rfl]
          simp only [get_tweet_info_with_params, hq, send_request]
          split <;> (try split) <;> rfl

/-- The hosts of all requests dispatched by the six operations, in the
order of their definition in the source. -/
def opRequestHosts (t : Transport) (c : TweetyClient) (i : Ids)
    (id m mid : String) (params : Option QueryParams)
    (p : Option PostTweetParams) : List (List Char) :=
  ((get_tweet t c i).2.2 ++ (get_tweet_info t c id).2.2 ++
   (get_tweet_info_with_params convert_query_to_string t c id params).2.2 ++
   (post_tweet t c m p).2.2 ++ (edit_tweet t c m mid).2 ++
   (delete_tweet t c id).2.2).map (fun r => urlHost r.url)

/-- C6 counterexample: at concrete arguments there is no host from which
exactly one of the six operations deviates — the deviating operations
number two, not one. -/
theorem c6_single_host_counterexample :
    ¬ ∃ h : List Char,
      ((opRequestHosts okTransport sampleClient (Ids.Single ("1")) ("1") ("hi")
          ("2") none none).filter (fun x => x ≠ h)).length = 1 := by
  rintro ⟨h, hh⟩
  have hL : opRequestHosts okTransport sampleClient (Ids.Single ("1")) ("1") ("hi")
      ("2") none none =
      [("api.x.com").data, ("api.x.com").data, ("api.x.com").data,
       ("api.twitter.com").data, ("api.twitter.com").data, ("api.x.com").data] := by
    decide
  rw [hL] at hh
  by_cases hx : h = ("api.x.com").data
  · subst hx; exact absurd hh (by decide)
  by_cases htw : h = ("api.twitter.com").data
  · subst htw; exact absurd hh (by decide)
  · have hfull : ([("api.x.com").data, ("api.x.com").data, ("api.x.com").data,
        ("api.twitter.com").data, ("api.twitter.com").data,
        ("api.x.com").data].filter (fun x => x ≠ h)) =
        [("api.x.com").data, ("api.x.com").data, ("api.x.com").data,
         ("api.twitter.com").data, ("api.twitter.com").data, ("api.x.com").data] := by
      refine List.filter_eq_self.mpr ?_
      intro a ha
      simp only [List.mem_cons, List.not_mem_nil, or_false] at ha
      rcases ha with rfl | rfl | rfl | rfl | rfl | rfl <;>
        exact decide_eq_true (fun he => by first | exact hx he.symm | exact htw he.symm)
    rw [hfull] at hh
    exact absurd hh (by decide)

/-- C6 amended: not one but exactly two operations — `post_tweet` and
`edit_tweet` — dispatch to the host api.twitter.com, while the other four
operations all dispatch to the host api.x.com. -/
theorem c6_two_deviating_hosts (t : Transport) (c : TweetyClient) (i : Ids)
    (id m mid : String) (params : Option QueryParams)
    (p : Option PostTweetParams) :
    opRequestHosts t c i id m mid params p =
      [("api.x.com").data, ("api.x.com").data, ("api.x.com").data,
       ("api.twitter.com").data, ("api.twitter.com").data, ("api.x.com").data] ∧
    ("api.twitter.com").data ≠ ("api.x.com").data := by
  refine ⟨?_, by decide⟩
  obtain ⟨s1, h1⟩ := lookup_params_log t c id params
  obtain ⟨b1, h2⟩ := post_tweet_log t c m p
  simp only [opRequestHosts, h1, h2, delete_tweet_log, get_tweet, get_tweet_info,
    edit_tweet, List.append_assoc, List.cons_append, List.nil_append, List.map_cons,
    List.map_nil]
  rw [show ("https://api.x.com/2/tweets/?ids=" ++ (Ids.render i)) =
      "https://api.x.com/" ++ ("2/tweets/?ids=" ++ Ids.render i) from
      String.append_assoc ("https://api.x.com/") ("2/tweets/?ids=") (Ids.render i),
    show ("https://api.x.com/2/tweets/" ++ id) =
      "https://api.x.com/" ++ ("2/tweets/" ++ id) from
      String.append_assoc ("https://api.x.com/") ("2/tweets/") id,
    show ("https://api.twitter.com/2/tweets/" ++ mid) =
      "https://api.twitter.com/" ++ ("2/tweets/" ++ mid) from
      String.append_assoc ("https://api.twitter.com/") ("2/tweets/") mid,
    show ("https://api.twitter.com/2/tweets" : String) =
      "https://api.twitter.com/" ++ "2/tweets" from rfl]
  simp only [urlHost_x, urlHost_twitter]

/-- C10: the operations are stateless per call: each of the five listed
operations leaves the client observable after the call identical to the
one before it, and its whole outcome is determined by the arguments and
the transport's responses at the requests it dispatches — two transports
agreeing there produce identical outcomes, so no state survives between
calls inside this layer. -/
theorem c10_stateless_per_call (c : TweetyClient) (t t' : Transport) (i : Ids)
    (id did m : String) (params : Option QueryParams)
    (p : Option PostTweetParams) :
    ((get_tweet t c i).1 = c ∧ (get_tweet_info t c id).1 = c ∧
     (get_tweet_info_with_params convert_query_to_string t c id params).1 = c ∧
     (post_tweet t c m p).1 = c ∧ (delete_tweet t c did).1 = c) ∧
    (((∀ r ∈ (get_tweet t c i).2.2, t c r = t' c r) →
        get_tweet t c i = get_tweet t' c i) ∧
     ((∀ r ∈ (get_tweet_info t c id).2.2, t c r = t' c r) →
        get_tweet_info t c id = get_tweet_info t' c id) ∧
     ((∀ r ∈ (get_tweet_info_with_params convert_query_to_string t c id params).2.2,
          t c r = t' c r) →
        get_tweet_info_with_params convert_query_to_string t c id params =
          get_tweet_info_with_params convert_query_to_string t' c id params) ∧
     ((∀ r ∈ (post_tweet t c m p).2.2, t c r = t' c r) →
        post_tweet t c m p = post_tweet t' c m p) ∧
     ((∀ r ∈ (delete_tweet t c did).2.2, t c r = t' c r) →
        delete_tweet t c did = delete_tweet t' c did)) := by
  constructor
  · refine ⟨rfl, rfl, ?_, ?_, ?_⟩
    · simp only [get_tweet_info_with_params, send_request]
      split <;> (try split) <;> (try split) <;> (try split) <;> rfl
    · simp only [post_tweet, send_request]
      split <;> (try split) <;> rfl
    · simp only [delete_tweet, send_request]
      split <;> (try split) <;> rfl
  refine ⟨?_, ?_, ?_, ?_, ?_⟩
  · intro h
    have hr := h ⟨"https://api.x.com/2/tweets/?ids=" ++ i.render, Method.GET, none⟩
      (by simp [get_tweet])
    simp only [get_tweet, send_request]
    rw [hr]
  · intro h
    have hr := h ⟨"https://api.x.com/2/tweets/" ++ id, Method.GET, none⟩
      (by simp [get_tweet_info])
    simp only [get_tweet_info, send_request]
    rw [hr]
  · intro h
    cases params with
    | none =>
        have hr := h ⟨"https://api.x.com/2/tweets/" ++ id, Method.GET, none⟩ (by
          simp only [get_tweet_info_with_params, send_request]
          split <;> (try split) <;> simp)
        simp only [get_tweet_info_with_params, send_request]
        rw [hr]
    | some q =>
        cases hq : convert_query_to_string q with
        | error e => simp [convert_query_to_string] at hq
        | ok qs =>
            have hr := h ⟨("https://api.x.com/2/tweets/" ++ id) ++ qs, Method.GET, none⟩ (by
              simp only [get_tweet_info_with_params, hq, send_request]
              split <;> (try split) <;> simp)
            simp only [get_tweet_info_with_params, hq, send_request]
            rw [hr]
  · intro h
    cases p with
    | none =>
        have hr := h ⟨"https://api.twitter.com/2/tweets", Method.POST,
            some (Json.obj [(("text"), Json.str m)])⟩ (by
          simp only [post_tweet, send_request]
          split <;> (try split) <;> simp)
        simp only [post_tweet, send_request]
        rw [hr]
    | some body =>
        have hr := h ⟨"https://api.twitter.com/2/tweets", Method.POST,
            some (body.to_json m)⟩ (by
          simp only [post_tweet, send_request]
          split <;> (try split) <;> simp)
        simp only [post_tweet, send_request]
        rw [hr]
  · intro h
    have hr := h ⟨"https://api.x.com/2/tweets/" ++ did, Method.DELETE, none⟩ (by
      simp only [delete_tweet, send_request]
      split <;> (try split) <;> simp)
    simp only [delete_tweet, send_request]
    rw [hr]

/-- Witness for C10 at concrete arguments and a concrete transport. -/
theorem c10_stateless_per_call_witness :
    (((get_tweet okTransport sampleClient (Ids.Single ("1"))).1 = sampleClient ∧
      (get_tweet_info okTransport sampleClient ("1")).1 = sampleClient ∧
      (get_tweet_info_with_params convert_query_to_string okTransport sampleClient
          ("1") none).1 = sampleClient ∧
      (post_tweet okTransport sampleClient ("hi") none).1 = sampleClient ∧
      (delete_tweet okTransport sampleClient ("2")).1 = sampleClient) ∧
     (((∀ r ∈ (get_tweet okTransport sampleClient (Ids.Single ("1"))).2.2,
          okTransport sampleClient r = okTransport sampleClient r) →
        get_tweet okTransport sampleClient (Ids.Single ("1")) =
          get_tweet okTransport sampleClient (Ids.Single ("1"))) ∧
      ((∀ r ∈ (get_tweet_info okTransport sampleClient ("1")).2.2,
          okTransport sampleClient r = okTransport sampleClient r) →
        get_tweet_info okTransport sampleClient ("1") =
          get_tweet_info okTransport sampleClient ("1")) ∧
      ((∀ r ∈ (get_tweet_info_with_params convert_query_to_string okTransport
            sampleClient ("1") none).2.2,
          okTransport sampleClient r = okTransport sampleClient r) →
        get_tweet_info_with_params convert_query_to_string okTransport sampleClient
            ("1") none =
          get_tweet_info_with_params convert_query_to_string okTransport sampleClient
            ("1") none) ∧
      ((∀ r ∈ (post_tweet okTransport sampleClient ("hi") none).2.2,
          okTransport sampleClient r = okTransport sampleClient r) →
        post_tweet okTransport sampleClient ("hi") none =
          post_tweet okTransport sampleClient ("hi") none) ∧
      ((∀ r ∈ (delete_tweet okTransport sampleClient ("2")).2.2,
          okTransport sampleClient r = okTransport sampleClient r) →
        delete_tweet okTransport sampleClient ("2") =
          delete_tweet okTransport sampleClient ("2")))) :=
  c10_stateless_per_call sampleClient okTransport okTransport (Ids.Single ("1"))
    ("1") ("2") ("hi") none none

end Tweety
